import Mathlib

/-
Verification of the authentication/authorization core of hollaex-kit
(src/tools/auth.js) against its natural-language specification.

The JavaScript source is shallowly embedded: promises become `Except`
values, the database becomes an explicit record of lists, and the
external collaborators (HMAC-SHA256, JWT verification, the TOTP `otp`
library, the clock) become explicit function parameters, since the
source treats them as black boxes.  JavaScript truthiness of strings is
modelled by comparison with the empty string, missing header fields by
`Option`, and an absent property / `undefined` by the `Option.none`
case at each use site, mirroring what the JavaScript engine does there.
-/

set_option autoImplicit false
set_option maxRecDepth 4000

namespace HollaexAuth

/-! ## JavaScript string helpers

`String.split(' ')` and `indexOf('Bearer ') === 0` are re-implemented
over character lists so that every definition reduces inside the
kernel. -/

/-- Splits a character list at every space, keeping empty segments,
exactly like the JavaScript `String.prototype.split(' ')`. -/
def splitSpaceAux : List Char → List Char → List String
  | [], acc => [String.mk acc.reverse]
  | c :: cs, acc =>
    if c = ' ' then String.mk acc.reverse :: splitSpaceAux cs []
    else splitSpaceAux cs (c :: acc)

/-- JavaScript `s.split(' ')`. -/
def jsSplitSpace (s : String) : List String := splitSpaceAux s.data []

/-- JavaScript `token && token.indexOf('Bearer ') === 0`: the string
starts with the literal `Bearer ` (which also forces it to be
non-empty, i.e. truthy). -/
def startsWithBearer (s : String) : Bool := s.data.take 7 == "Bearer ".data

/-- JavaScript `token.split(' ')[1]`.  Indexing past the end would give
`undefined` in JavaScript; that case is unreachable in the source
because the string is known to contain a space, and is mapped to the
empty string here. -/
def bearerTokenString (token : String) : String := (jsSplitSpace token).getD 1 ""

/-- Decimal digits of a natural number, fuel-indexed so the recursion
is structural and kernel-reducible. -/
def natToStrAux : Nat → Nat → String
  | 0, _ => ""
  | fuel + 1, n =>
    if n < 10 then String.mk [Char.ofNat (48 + n)]
    else natToStrAux fuel (n / 10) ++ String.mk [Char.ofNat (48 + n % 10)]

/-- Decimal rendering of a natural number. -/
def natToStr (n : Nat) : String := natToStrAux (n + 1) n

/-- Decimal rendering of an integer, as JavaScript renders an integral
number when it is concatenated into a string. -/
def intToStr : Int → String
  | Int.ofNat n => natToStr n
  | Int.negSucc n => "-" ++ natToStr (n + 1)

/-! ## JSON values and `JSON.stringify`

The request body handed to the signature engine is either a string
(taken verbatim) or a JSON-serialisable value; `JSON.stringify` is
embedded for the latter. -/

/-- A JSON-serialisable JavaScript value (the possible shapes of a
request body). -/
inductive Json where
  | null
  | bool (b : Bool)
  | num (n : Int)
  | str (s : String)
  | arr (elems : List Json)
  | obj (fields : List (String × Json))

/-- JSON string escaping for the characters `JSON.stringify` escapes in
ordinary text. -/
def escapeJsonChar (c : Char) : String :=
  if c = '"' then "\\\""
  else if c = '\\' then "\\\\"
  else if c = '\n' then "\\n"
  else if c = '\r' then "\\r"
  else if c = '\t' then "\\t"
  else String.mk [c]

/-- JSON escaping of a whole string. -/
def escapeJson (s : String) : String := String.join (s.data.map escapeJsonChar)

mutual

/-- `JSON.stringify` on the embedded JSON values (compact form, no
whitespace, keys in record order). -/
def jsonStringify : Json → String
  | Json.null => "null"
  | Json.bool b => cond b "true" "false"
  | Json.num n => intToStr n
  | Json.str s => "\"" ++ escapeJson s ++ "\""
  | Json.arr xs => "[" ++ jsonStringifyList xs ++ "]"
  | Json.obj fs => "\x7b" ++ jsonStringifyFields fs ++ "\x7d"

/-- Comma-separated serialisation of a JSON array's elements. -/
def jsonStringifyList : List Json → String
  | [] => ""
  | [x] => jsonStringify x
  | x :: xs => jsonStringify x ++ "," ++ jsonStringifyList xs

/-- Comma-separated serialisation of a JSON object's fields. -/
def jsonStringifyFields : List (String × Json) → String
  | [] => ""
  | [f] => "\"" ++ escapeJson f.1 ++ "\":" ++ jsonStringify f.2
  | f :: fs => "\"" ++ escapeJson f.1 ++ "\":" ++ jsonStringify f.2 ++ "," ++ jsonStringifyFields fs

end

/-! ## Error taxonomy

One constructor per message constant imported at the top of
src/tools/auth.js, plus `userNotFound` for the user-lookup collaborator
(`/tools/user`, outside this file) and `internalError` for a rejected
promise caused by touching a property of a `null` database row. -/

/-- The typed denial reasons of the auth core. -/
inductive AuthError where
  | missingHeader
  | multipleApiKey
  | invalidToken
  | tokenExpired
  | notAuthorized
  | deactivatedUser
  | apiKeyNull
  | apiSignatureNull
  | apiRequestExpired
  | apiKeyInvalid
  | apiKeyOutOfScope
  | apiKeyExpired
  | apiKeyInactive
  | apiSignatureInvalid
  | tokenOtpMustBeEnabled
  | invalidOtpCode
  | invalidPassword
  | samePassword
  | codeNotFound
  | codeUsed
  | tokenNotFound
  | tokenRevoked
  | userNotFound
  | internalError
deriving DecidableEq

/-! ## Data model -/

/-- The subject embedded in a bearer token (`decodedToken.sub`). -/
structure Subject where
  id : Nat
  email : String
deriving DecidableEq

/-- A decoded bearer-token payload: `{sub, scopes, ip, iss}` as signed
by `issueToken`. -/
structure DecodedToken where
  sub : Subject
  scopes : List String
  iss : String
  ip : String
deriving DecidableEq

/-- An API-key token row of the `token` table. -/
structure TokenRec where
  id : Nat
  user_id : Nat
  name : String
  ip : String
  key : String
  secret : String
  role : String
  type : String
  active : Bool
  revoked : Bool
  expiry : Int
deriving DecidableEq

/-- A row of the `user` table (only the fields the auth core reads). -/
structure User where
  id : Nat
  email : String
  otp_enabled : Bool
  password : String
deriving DecidableEq

/-- A row of the `otp code` table. -/
structure OtpCodeRec where
  id : Nat
  user_id : Nat
  secret : String
  used : Bool
  updated_at : Nat
deriving DecidableEq

/-- A row of the `reset password code` table. -/
structure ResetCodeRec where
  code : String
  user_id : Nat
  used : Bool
deriving DecidableEq

/-- The singleton `status` row holding the exchange's system-level
network key and secret. -/
structure StatusRec where
  api_key : String
  api_secret : String
deriving DecidableEq

/-- The persistent store as the auth core sees it. -/
structure DB where
  users : List User
  otpCodes : List OtpCodeRec
  tokens : List TokenRec
  resetCodes : List ResetCodeRec
  status : StatusRec
deriving DecidableEq

/-- The inbound headers the auth core consults.  `none` is an absent
header (`has(req.headers, h)` false); `some` is a present header, whose
value may still be falsy (empty string). -/
structure Headers where
  apiKey : Option String
  authorization : Option String
  apiSignature : Option String
  apiExpires : Option Int
deriving DecidableEq

/-- The part of an HTTP request that `checkHmacSignature` reads. -/
structure HmacReq where
  body : Json
  headers : Headers
  method : String
  originalUrl : String

/-- JavaScript truthiness test for an optional header value: absent or
empty is falsy. -/
def optFalsy : Option String → Bool
  | none => true
  | some s => s == ""

/-- JavaScript `moment().unix() > apiExpires` for an optional expires
header: a missing header compares as `NaN`, which makes the comparison
false. -/
def requestExpired (nowSec : Int) : Option Int → Bool
  | none => false
  | some e => nowSec > e

/-- The numeric `api-expires` header as it appears inside the signature
base string: string concatenation renders an absent value as the text
`undefined` in JavaScript. -/
def expiresHeaderString : Option Int → String
  | none => "undefined"
  | some e => intToStr e

/-- Lodash `intersection` restricted to what the source needs: the
elements of the first list that also occur in the second (the source
only ever tests emptiness, so lodash's deduplication is irrelevant). -/
def intersection (xs ys : List String) : List String :=
  xs.filter (fun x => ys.contains x)

/-! ## Signature engine (`calculateSignature`, `checkHmacSignature`)

`crypto.createHmac('sha256', secret).update(msg).digest('hex')` is an
external primitive; it enters every definition as an explicit
parameter `hmac : String → String → String` (secret, message ↦ hex
digest). -/

/-- The body serialisation of `calculateSignature`:
`typeof data === 'string' ? data : JSON.stringify(data)`. -/
def stringifyData : Json → String
  | Json.str s => s
  | d => jsonStringify d

/-- `calculateSignature(secret, verb, path, nonce, data)` from
src/tools/auth.js lines 850-858. -/
def calculateSignature (hmac : String → String → String)
    (secret verb path nonce : String) (data : Json) : String :=
  hmac secret (verb ++ path ++ nonce ++ stringifyData data)

/-- `checkHmacSignature(secret, req)` from src/tools/auth.js lines
860-875: recomputes the signature over the request's method, URL,
`api-expires` header and body, and compares it to the `api-signature`
header with strict equality (a missing header is `undefined` and never
equal to the computed hex string). -/
def checkHmacSignature (hmac : String → String → String)
    (secret : String) (req : HmacReq) : Bool :=
  let calculated := calculateSignature hmac secret req.method req.originalUrl
    (expiresHeaderString req.headers.apiExpires) req.body
  match req.headers.apiSignature with
  | none => false
  | some s => calculated == s

/-- Modelled from the spec (section 4.1): the signature base is the
exact concatenation `method + path + nonce + serialized-body`, where
the body is unchanged if already textual and otherwise its canonical
JSON serialisation.  Stated separately from `calculateSignature` so the
two can be compared. -/
def specSign (hmac : String → String → String)
    (secret method path nonce : String) (body : Json) : String :=
  hmac secret (method ++ path ++ nonce ++
    (match body with
     | Json.str s => s
     | b => jsonStringify b))

/-! ## Bearer token verification

`jwt.verify(tokenString, SECRET, ...)` is an external primitive.  It is
split into its two independent ingredients so the spec's phrase
"embedded scopes" is meaningful even for a token whose signature is
bad: `jwtDecode` reads the payload without any cryptography, and
`jwtCheck` is the cryptographic verdict (signature valid and not past
the embedded `exp`).  `jwt.verify` succeeds exactly when both do. -/

/-- The collaborators of bearer-token verification: payload decoding,
cryptographic checking, the configured `ISSUER`, and the frozen-user
snapshot from `getFrozenUsers()`. -/
structure BearerEnv where
  jwtDecode : String → Option DecodedToken
  jwtCheck : String → Bool
  issuer : String
  frozen : Nat → Bool

/-- The embedding of `jwt.verify`: a decoded payload when the token
both parses and passes the cryptographic check, otherwise a
verification error. -/
def jwtVerify (env : BearerEnv) (tokenString : String) : Option DecodedToken :=
  if env.jwtCheck tokenString then env.jwtDecode tokenString else none

/-- `verifyBearerTokenPromise(token, ip, scopes)` from src/tools/auth.js
lines 263-312.  The `ip` argument is only logged, so it is omitted. -/
def verifyBearerTokenPromise (env : BearerEnv) (token : String)
    (scopes : List String) : Except AuthError DecodedToken :=
  if startsWithBearer token then
    match jwtVerify env (bearerTokenString token) with
    | some decodedToken =>
      if (intersection decodedToken.scopes scopes).length == 0 then
        Except.error AuthError.notAuthorized
      else if decodedToken.iss != env.issuer then
        Except.error AuthError.tokenExpired
      else if env.frozen decodedToken.sub.id then
        Except.error AuthError.deactivatedUser
      else Except.ok decodedToken
    | none => Except.error AuthError.invalidToken
  else Except.error AuthError.missingHeader

/-- Outcome of a swagger-security middleware: an error response sent,
the success callback invoked with an attached `req.auth`, or neither
(the function simply returns without deciding the request). -/
inductive MwResult (α : Type) where
  | err (e : AuthError)
  | ok (auth : α)
  | noOutcome
deriving DecidableEq

/-- `verifyBearerTokenMiddleware(req, authOrSecDef, token, cb)` from
src/tools/auth.js lines 51-138.  `endpointScopes` stands for
`req.swagger.operation['x-security-scopes']` (or `BASE_SCOPES`), and
`token` for the third argument handed over by the framework. -/
def verifyBearerTokenMiddleware (env : BearerEnv) (headers : Headers)
    (token : String) (endpointScopes : List String) : MwResult DecodedToken :=
  if headers.apiKey.isNone && headers.authorization.isNone then
    MwResult.err AuthError.missingHeader
  else if headers.apiKey.isSome && headers.authorization.isSome then
    MwResult.err AuthError.multipleApiKey
  else if headers.apiKey.isNone && headers.authorization.isSome then
    if startsWithBearer token then
      match jwtVerify env (bearerTokenString token) with
      | some decodedToken =>
        if (intersection decodedToken.scopes endpointScopes).length == 0 then
          MwResult.err AuthError.notAuthorized
        else if decodedToken.iss != env.issuer then
          MwResult.err AuthError.tokenExpired
        else if env.frozen decodedToken.sub.id then
          MwResult.err AuthError.deactivatedUser
        else MwResult.ok decodedToken
      | none => MwResult.err AuthError.invalidToken
    else MwResult.err AuthError.missingHeader
  else
    -- api-key present and authorization absent: no branch of the
    -- source's if/else-if chain applies, the function returns
    -- undefined without calling cb or sending a response.
    MwResult.noOutcome

/-! ## HMAC API-key verification -/

/-- `findTokenByApiKey(apiKey)` from src/tools/auth.js lines 834-848:
`findOne` on the `token` table with `where: { key: apiKey, active:
true }`. -/
def findTokenByApiKey (db : DB) (apiKey : String) : Option TokenRec :=
  db.tokens.find? (fun t => t.key == apiKey && t.active)

/-- The `user` row joined onto a token by `findTokenByApiKey`'s
`include`. -/
def findUserById (db : DB) (id : Nat) : Option User :=
  db.users.find? (fun u => u.id == id)

/-- The identity object attached on HMAC success:
`{ sub: { id: token.user.id, email: token.user.email } }`. -/
def tokenAuth (db : DB) (t : TokenRec) : Subject :=
  { id := t.user_id
    email := ((findUserById db t.user_id).map User.email).getD "" }

/-- `verifyHmacTokenPromise(apiKey, apiSignature, apiExpires, method,
originalUrl, body, scopes)` from src/tools/auth.js lines 314-364.
`nowSec` is `moment().unix()` and `nowMs` is `new Date()` in
milliseconds (the source compares the request window in seconds but
the key record's own expiry in milliseconds). -/
def verifyHmacTokenPromise (hmac : String → String → String) (db : DB)
    (nowSec nowMs : Int) (apiKey apiSignature : String) (apiExpires : Int)
    (method originalUrl : String) (body : Json) (scopes : List String) :
    Except AuthError Subject :=
  if apiKey == "" then Except.error AuthError.apiKeyNull
  else if apiSignature == "" then Except.error AuthError.apiSignatureNull
  else if nowSec > apiExpires then Except.error AuthError.apiRequestExpired
  else
    match findTokenByApiKey db apiKey with
    | none => Except.error AuthError.apiKeyInvalid
    | some t =>
      if !(scopes.contains t.type) then Except.error AuthError.apiKeyOutOfScope
      else if t.expiry < nowMs then Except.error AuthError.apiKeyExpired
      else if !t.active then Except.error AuthError.apiKeyInactive
      else
        let req : HmacReq :=
          { body := body
            headers := { apiKey := some apiKey
                         authorization := none
                         apiSignature := some apiSignature
                         apiExpires := some apiExpires }
            method := method
            originalUrl := originalUrl }
        if !(checkHmacSignature hmac t.secret req) then
          Except.error AuthError.apiSignatureInvalid
        else Except.ok (tokenAuth db t)

/-- `verifyHmacTokenMiddleware(req, definition, apiKey, cb)` from
src/tools/auth.js lines 140-225.  `apiKeyParam` is the third argument
supplied by the framework; the check order differs from the promise
variant (expiry before signature presence). -/
def verifyHmacTokenMiddleware (hmac : String → String → String) (db : DB)
    (nowSec nowMs : Int) (headers : Headers) (method originalUrl : String)
    (body : Json) (apiKeyParam : String) (endpointScopes : List String) :
    MwResult Subject :=
  if headers.apiKey.isSome && headers.authorization.isSome then
    MwResult.err AuthError.multipleApiKey
  else if headers.apiKey.isSome && headers.authorization.isNone then
    if apiKeyParam == "" then MwResult.err AuthError.apiKeyNull
    else if requestExpired nowSec headers.apiExpires then
      MwResult.err AuthError.apiRequestExpired
    else if optFalsy headers.apiSignature then
      MwResult.err AuthError.apiSignatureNull
    else
      match findTokenByApiKey db apiKeyParam with
      | none => MwResult.err AuthError.apiKeyInvalid
      | some t =>
        if !(endpointScopes.contains t.type) then
          MwResult.err AuthError.apiKeyOutOfScope
        else if t.expiry < nowMs then MwResult.err AuthError.apiKeyExpired
        else if !t.active then MwResult.err AuthError.apiKeyInactive
        else
          let req : HmacReq :=
            { body := body, headers := headers
              method := method, originalUrl := originalUrl }
          if !(checkHmacSignature hmac t.secret req) then
            MwResult.err AuthError.apiSignatureInvalid
          else MwResult.ok (tokenAuth db t)
  else
    -- no api-key header: neither branch applies, the middleware
    -- returns without any outcome.
    MwResult.noOutcome

/-- `getApiKeySecret()` from src/tools/auth.js lines 227-235: the
system-level key/secret pair from the singleton `status` row. -/
def getApiKeySecret (db : DB) : String × String :=
  (db.status.api_key, db.status.api_secret)

/-- `verifyNetworkHmacToken(req)` from src/tools/auth.js lines 237-261.
Faithful to a defect in the source: `getApiKeySecret()` returns a
promise that is never awaited, so `systemKeySecret.apiSecret` is the
JavaScript value `undefined`, and `calculateSignature`'s default
parameter `secret = ''` replaces it with the empty string.  The stored
`status.api_secret` therefore never reaches the comparison, which is
why the signature below is checked against `""` and the `db` argument
is otherwise unused. -/
def verifyNetworkHmacToken (hmac : String → String → String) (db : DB)
    (nowSec : Int) (req : HmacReq) : Except AuthError Unit :=
  let _systemKeySecret := getApiKeySecret db
  if optFalsy req.headers.apiKey then Except.error AuthError.apiKeyNull
  else if optFalsy req.headers.apiSignature then
    Except.error AuthError.apiSignatureNull
  else if requestExpired nowSec req.headers.apiExpires then
    Except.error AuthError.apiRequestExpired
  else if !(checkHmacSignature hmac "" req) then
    Except.error AuthError.apiSignatureInvalid
  else Except.ok ()

/-! ## OTP (TOTP) service

The `otp` npm package is an external dependency; per the spec (section
4.4) its `totp()` is the standard time-step TOTP computation, a pure
function of the shared secret and the 30-second step counter
`floor((nowSeconds - epoch) / 30)`.  It enters the embedding as the
parameter `hotp : secret → counter → code`. -/

/-- The collaborators of the OTP service: the per-counter code
function and the current time in seconds. -/
structure OtpEnv where
  hotp : String → Int → String
  nowSec : Int

/-- The TOTP step length used by the `otp` package (seconds). -/
def timeSlice : Int := 30

/-- `generateOtp(secret, epoch)` from src/tools/auth.js lines 425-433:
the TOTP code at step `floor((now - epoch) / 30)`.  (The `name` option
only labels the enrollment URI and does not influence the code.) -/
def generateOtp (env : OtpEnv) (secret : String) (epoch : Int) : String :=
  env.hotp secret ((env.nowSec - epoch) / timeSlice)

/-- `verifyOtp(userSecret, userDigits)` from src/tools/auth.js lines
435-438: the candidate is accepted when it occurs among the codes at
epoch offsets 30, 0 and -30 — one step behind, current, one ahead. -/
def verifyOtp (env : OtpEnv) (userSecret userDigits : String) : Bool :=
  let serverDigits := [generateOtp env userSecret 30,
    generateOtp env userSecret 0, generateOtp env userSecret (-30)]
  serverDigits.contains userDigits

/-- `hasUserOtpEnabled(id)` from src/tools/auth.js lines 440-447.  A
missing user row makes the source read `otp_enabled` off `null` and
reject with a TypeError, embedded as `internalError`. -/
def hasUserOtpEnabled (db : DB) (id : Nat) : Except AuthError Bool :=
  match findUserById db id with
  | some u => Except.ok u.otp_enabled
  | none => Except.error AuthError.internalError

/-- The most recently updated used OTP-code row of a user:
`findOne('otp code', { where: { used: true, user_id }, order:
updated_at DESC })`. -/
def latestUsedOtpCode (db : DB) (user_id : Nat) : Option OtpCodeRec :=
  (db.otpCodes.filter (fun c => c.used && c.user_id == user_id)).foldl
    (fun acc c =>
      match acc with
      | none => some c
      | some b => if c.updated_at > b.updated_at then some c else some b)
    none

/-- `verifyUserOtpCode(user_id, otp_code)` from src/tools/auth.js lines
449-467: verifies the candidate against the most recently used
(enrolled) secret; a missing row is a TypeError on `otpCode.secret`
(`internalError`). -/
def verifyUserOtpCode (env : OtpEnv) (db : DB) (user_id : Nat)
    (otp_code : String) : Except AuthError Bool :=
  match latestUsedOtpCode db user_id with
  | none => Except.error AuthError.internalError
  | some otpCode =>
    if verifyOtp env otpCode.secret otp_code then Except.ok true
    else Except.error AuthError.invalidOtpCode

/-- `verifyOtpBeforeAction(user_id, otp_code)` from src/tools/auth.js
lines 469-477: pass-through `true` when the user has not enabled OTP,
otherwise a real code verification. -/
def verifyOtpBeforeAction (env : OtpEnv) (db : DB) (user_id : Nat)
    (otp_code : String) : Except AuthError Bool := do
  let otp_enabled ← hasUserOtpEnabled db user_id
  if otp_enabled then verifyUserOtpCode env db user_id otp_code
  else pure true

/-- Modelled from the spec (sections 2 and 6): `getUserByKitId` lives
in `tools/user`, a file of this repository that is not part of the
given sources; per the store contract it finds the user row by id and
fails with a propagated not-found condition when absent. -/
def getUserByKitId (db : DB) (id : Nat) : Except AuthError User :=
  match findUserById db id with
  | some u => Except.ok u
  | none => Except.error AuthError.userNotFound

/-- `checkUserOtpActive(userId, otpCode)` from src/tools/auth.js lines
716-728: resolves only when the user has OTP enabled and the supplied
code verifies; a user without OTP enabled is rejected with
`TOKEN_OTP_MUST_BE_ENABLED` even though `verifyOtpBeforeAction`
itself passed trivially. -/
def checkUserOtpActive (env : OtpEnv) (db : DB) (userId : Nat)
    (otpCode : String) : Except AuthError Unit := do
  let user ← getUserByKitId db userId
  let validOtp ← verifyOtpBeforeAction env db userId otpCode
  if !user.otp_enabled then Except.error AuthError.tokenOtpMustBeEnabled
  else if !validOtp then Except.error AuthError.invalidOtpCode
  else Except.ok ()

/-! ## API-key lifecycle -/

/-- The value `createUserKitHmacToken` resolves with:
`{ id: userId, key: { apiKey, secret } }`. -/
structure CreatedKey where
  id : Nat
  apiKey : String
  secret : String
deriving DecidableEq

/-- The configured `ROLES.USER` role label. -/
def rolesUser : String := "user"

/-- The configured `TOKEN_TYPES.HMAC` type label. -/
def tokenTypesHmac : String := "hmac"

/-- `createUserKitHmacToken(userId, otpCode, ip, name)` from
src/tools/auth.js lines 772-800.  The random `key` and `secret` from
`crypto.randomBytes` and the clock reading `Date.now()` enter as
parameters; `hmacTokenExpiry` is the configured `HMAC_TOKEN_EXPIRY`;
the store-assigned row id is modelled as the current table length. -/
def createUserKitHmacToken (env : OtpEnv) (db : DB) (userId : Nat)
    (otpCode ip name key secret : String) (nowMs hmacTokenExpiry : Int) :
    Except AuthError (DB × CreatedKey) := do
  checkUserOtpActive env db userId otpCode
  let newTok : TokenRec :=
    { id := db.tokens.length
      user_id := userId
      name := name
      ip := ip
      key := key
      secret := secret
      role := rolesUser
      type := tokenTypesHmac
      active := true
      revoked := false
      expiry := nowMs + hmacTokenExpiry }
  Except.ok ({ db with tokens := db.tokens ++ [newTok] },
    { id := userId, apiKey := key, secret := secret })

/-! ## Credential recovery -/

/-- `isValidPassword(value)` from src/tools/auth.js lines 667-669: the
regex `^(?=.*[a-zA-Z])(?=.*[0-9]).{8,}$` — at least one ASCII letter,
at least one ASCII digit, at least eight characters, and (because `.`
in a JavaScript regex matches no line terminator and `$` anchors the
very end) no line-terminator characters at all. -/
def isValidPassword (value : String) : Bool :=
  value.data.length ≥ 8 &&
  value.data.all (fun c =>
    !(c = '\n' || c = '\r' || c.toNat = 0x2028 || c.toNat = 0x2029)) &&
  value.data.any Char.isAlpha &&
  value.data.any Char.isDigit

/-- `getResetPasswordCode(code)` from src/tools/auth.js lines 621-631:
`findOne` by code value, failing with a 404 `CODE_NOT_FOUND` when
absent. -/
def getResetPasswordCode (db : DB) (code : String) :
    Except AuthError ResetCodeRec :=
  match db.resetCodes.find? (fun c => c.code == code) with
  | some c => Except.ok c
  | none => Except.error AuthError.codeNotFound

/-- The field-scoped update `code.update({ used: true })`. -/
def markResetCodeUsed (db : DB) (code : String) : DB :=
  { db with resetCodes := (db.resetCodes.map
      (fun c => if c.code == code then { c with used := true } else c)) }

/-- The field-scoped update `user.update({ password })`. -/
def updateUserPassword (db : DB) (id : Nat) (password : String) : DB :=
  { db with users := (db.users.map
      (fun u => if u.id == id then { u with password := password } else u)) }

/-- `resetUserPassword(resetPasswordCode, newPassword)` from
src/tools/auth.js lines 671-684: format check, code lookup, `CodeUsed`
guard, then mark-used followed by the password update (two separate
store writes; the user lookup in between is `getUserByKitId`).  The
returned value is the database after all writes that happened. -/
def resetUserPassword (db : DB) (resetPasswordCode newPassword : String) :
    Except AuthError DB :=
  if !(isValidPassword newPassword) then Except.error AuthError.invalidPassword
  else do
    let code ← getResetPasswordCode db resetPasswordCode
    if code.used then Except.error AuthError.codeUsed
    else
      let db1 := markResetCodeUsed db code.code
      match findUserById db1 code.user_id with
      | none => Except.error AuthError.userNotFound
      | some u => Except.ok (updateUserPassword db1 u.id newPassword)

/-! ## Concrete fixtures

Closed inputs used by counterexamples and witnesses. -/

deriving instance DecidableEq for Except

/-- A toy injective stand-in for the HMAC-SHA256 hex digest, used only
to evaluate the embedding at closed inputs. -/
def hmacToy : String → String → String :=
  fun secret msg => "hmac(" ++ secret ++ "," ++ msg ++ ")"

/-- A user who has not enabled OTP. -/
def userNoOtp : User :=
  { id := 1, email := "u@x.io", otp_enabled := false, password := "abcd1234" }

/-- A store holding only `userNoOtp`. -/
def dbNoOtp : DB :=
  { users := [userNoOtp], otpCodes := [], tokens := [], resetCodes := []
    status := { api_key := "sk", api_secret := "ss" } }

/-- A concrete OTP environment: time 95 s (step counter 3), with a
distinct code per step counter. -/
def otpEnvW : OtpEnv :=
  { hotp := fun s n => s ++
      (if n = 1 then "1" else if n = 2 then "2" else if n = 3 then "3"
       else if n = 4 then "4" else "x")
    nowSec := 95 }

/-- A decoded payload whose scopes miss the `user` base scope. -/
def dtokOther : DecodedToken :=
  { sub := { id := 1, email := "a@x.io" }, scopes := ["other"]
    iss := "hollaex", ip := "" }

/-- A bearer environment in which every token decodes to `dtokOther`
but no token passes the cryptographic check. -/
def envSigBad : BearerEnv :=
  { jwtDecode := fun _ => some dtokOther, jwtCheck := fun _ => false
    issuer := "hollaex", frozen := fun _ => false }

/-- A bearer environment in which every token decodes to `dtokOther`
and passes the cryptographic check; the configured issuer differs from
the payload's. -/
def envIssuerMismatch : BearerEnv :=
  { jwtDecode := fun _ => some dtokOther, jwtCheck := fun _ => true
    issuer := "otherIssuer", frozen := fun _ => false }

/-- A revoked API-key row: inactive, revoked, key `rk`, secret
`rsecret`, far-future expiry. -/
def revokedToken : TokenRec :=
  { id := 1, user_id := 1, name := "nm", ip := "", key := "rk"
    secret := "rsecret", role := "user", type := "hmac"
    active := false, revoked := true, expiry := 10000 }

/-- A store holding only the revoked key row and its owner. -/
def dbRevoked : DB :=
  { users := [userNoOtp], otpCodes := [], tokens := [revokedToken]
    resetCodes := [], status := { api_key := "sk", api_secret := "ss" } }

/-- A request over `GET /p` with expiry 9 and body `b`, carrying the
signature recomputed with `hmacToy` under secret `sec`. -/
def reqSigned : HmacReq :=
  { body := Json.str "b"
    headers := { apiKey := none, authorization := none
                 apiSignature := some (hmacToy "sec" ("GET" ++ "/p" ++ "9" ++ "b"))
                 apiExpires := some 9 }
    method := "GET", originalUrl := "/p" }

/-- A reset-password code that has already been consumed. -/
def usedResetCode : ResetCodeRec := { code := "rc-1", user_id := 1, used := true }

/-- A store holding the consumed reset code and its owner. -/
def dbUsedCode : DB :=
  { users := [userNoOtp], otpCodes := [], tokens := []
    resetCodes := [usedResetCode]
    status := { api_key := "sk", api_secret := "ss" } }

/-- The status row of the network-verification store. -/
def statusW : StatusRec := { api_key := "syskey", api_secret := "syssecret" }

/-- A store holding only the status row. -/
def dbStatus : DB :=
  { users := [], otpCodes := [], tokens := [], resetCodes := [], status := statusW }

/-- A network request correctly signed with the stored system secret
`syssecret` over `GET /network` with expiry 100. -/
def netReqGood : HmacReq :=
  { body := Json.str ""
    headers := { apiKey := some "syskey", authorization := none
                 apiSignature := some (hmacToy "syssecret" ("GET" ++ "/network" ++ "100" ++ ""))
                 apiExpires := some 100 }
    method := "GET", originalUrl := "/network" }

/-- The same network request signed with the empty secret instead of
the stored one. -/
def netReqForged : HmacReq :=
  { body := Json.str ""
    headers := { apiKey := some "syskey", authorization := none
                 apiSignature := some (hmacToy "" ("GET" ++ "/network" ++ "100" ++ ""))
                 apiExpires := some 100 }
    method := "GET", originalUrl := "/network" }

/-! ## Claims -/

/-- Claim C5: whenever the request carries both an `api-key` and an
`authorization` header, both gate middlewares reject with
`MultipleApiKey`, whatever the header values, the token argument, the
store, the clock, or the rest of the request contain. -/
theorem multiple_api_key_rejected (env : BearerEnv)
    (hmac : String → String → String) (db : DB) (nowSec nowMs : Int)
    (k a : String) (sig : Option String) (ex : Option Int)
    (token apiKeyParam method originalUrl : String) (body : Json)
    (scopes : List String) :
    verifyBearerTokenMiddleware env
        { apiKey := some k, authorization := some a
          apiSignature := sig, apiExpires := ex } token scopes
      = MwResult.err AuthError.multipleApiKey ∧
    verifyHmacTokenMiddleware hmac db nowSec nowMs
        { apiKey := some k, authorization := some a
          apiSignature := sig, apiExpires := ex } method originalUrl body
        apiKeyParam scopes
      = MwResult.err AuthError.multipleApiKey := by
  exact ⟨rfl, rfl⟩

/-- Claim C10: on a request that has an `api-key` header but no
`authorization` header, the bearer middleware neither invokes the
success callback nor sends an error response: none of the branches of
its if/else-if chain applies and it returns without an outcome. -/
theorem bearer_middleware_api_key_no_outcome (env : BearerEnv) (k : String)
    (sig : Option String) (ex : Option Int) (token : String)
    (scopes : List String) :
    verifyBearerTokenMiddleware env
        { apiKey := some k, authorization := none
          apiSignature := sig, apiExpires := ex } token scopes
      = MwResult.noOutcome := by
  exact rfl

/-- Claim C2, counterexample: a request whose bearer token decodes to
scopes `["other"]` (empty intersection with the required `["user"]`)
but fails the cryptographic check is rejected with `InvalidToken`, not
`NotAuthorized` — the signature check runs first, so the claim's
"regardless of whether the token's signature is valid" is false. -/
theorem scope_reject_invalid_signature_counterexample :
    envSigBad.jwtDecode (bearerTokenString "Bearer t") = some dtokOther ∧
    intersection dtokOther.scopes ["user"] = [] ∧
    envSigBad.jwtCheck (bearerTokenString "Bearer t") = false ∧
    verifyBearerTokenPromise envSigBad "Bearer t" ["user"]
      = Except.error AuthError.invalidToken ∧
    verifyBearerTokenPromise envSigBad "Bearer t" ["user"]
      ≠ Except.error AuthError.notAuthorized := by
  exact ⟨rfl, rfl, rfl, rfl, by decide⟩

/-- Claim C2, amended: for every bearer token that passes the
cryptographic check and decodes to a payload whose scopes have empty
intersection with the required scopes, verification fails with
`NotAuthorized` — both in `verifyBearerTokenPromise` and in the
middleware variant; a token failing the cryptographic check fails with
`InvalidToken` instead, whatever its embedded scopes. -/
theorem scope_mismatch_not_authorized (env : BearerEnv) (token : String)
    (scopes : List String) (d : DecodedToken)
    (hfmt : startsWithBearer token = true)
    (hchk : env.jwtCheck (bearerTokenString token) = true)
    (hdec : env.jwtDecode (bearerTokenString token) = some d)
    (hint : intersection d.scopes scopes = []) :
    verifyBearerTokenPromise env token scopes
      = Except.error AuthError.notAuthorized ∧
    (∀ (a : String) (sig : Option String) (ex : Option Int),
      verifyBearerTokenMiddleware env
          { apiKey := none, authorization := some a
            apiSignature := sig, apiExpires := ex } token scopes
        = MwResult.err AuthError.notAuthorized) := by
  constructor
  · unfold verifyBearerTokenPromise jwtVerify
    simp [hfmt, hchk, hdec, hint]
  · intro a sig ex
    unfold verifyBearerTokenMiddleware jwtVerify
    simp [hfmt, hchk, hdec, hint]

/-- Claim C2, witness for the amended theorem: a concrete
cryptographically valid token with scopes `["other"]` against required
scopes `["user"]` is rejected with `NotAuthorized` on both paths. -/
theorem scope_mismatch_not_authorized_witness :
    verifyBearerTokenPromise envIssuerMismatch "Bearer t" ["user"]
      = Except.error AuthError.notAuthorized ∧
    verifyBearerTokenMiddleware envIssuerMismatch
        { apiKey := none, authorization := some "Bearer t"
          apiSignature := none, apiExpires := none } "Bearer t" ["user"]
      = MwResult.err AuthError.notAuthorized := by
  have h := scope_mismatch_not_authorized envIssuerMismatch "Bearer t"
    ["user"] dtokOther (by decide) (by decide) (by decide) (by decide)
  exact ⟨h.1, h.2 "Bearer t" none none⟩

/-- Claim C6: a bearer token that passes the cryptographic check
(signature valid, not expired) and whose scopes intersect the required
scopes, but whose embedded issuer differs from the configured issuer,
is rejected with `TokenExpired` — not `InvalidToken` — on both the
promise path and the middleware path; the issuer comparison is a
separate check performed after cryptographic verification succeeded. -/
theorem issuer_mismatch_token_expired (env : BearerEnv) (token : String)
    (scopes : List String) (d : DecodedToken)
    (hfmt : startsWithBearer token = true)
    (hchk : env.jwtCheck (bearerTokenString token) = true)
    (hdec : env.jwtDecode (bearerTokenString token) = some d)
    (hint : intersection d.scopes scopes ≠ [])
    (hiss : d.iss ≠ env.issuer) :
    verifyBearerTokenPromise env token scopes
      = Except.error AuthError.tokenExpired ∧
    (∀ (a : String) (sig : Option String) (ex : Option Int),
      verifyBearerTokenMiddleware env
          { apiKey := none, authorization := some a
            apiSignature := sig, apiExpires := ex } token scopes
        = MwResult.err AuthError.tokenExpired) := by
  constructor
  · unfold verifyBearerTokenPromise jwtVerify
    simp [hfmt, hchk, hdec, List.length_eq_zero, hint, hiss]
  · intro a sig ex
    unfold verifyBearerTokenMiddleware jwtVerify
    simp [hfmt, hchk, hdec, List.length_eq_zero, hint, hiss]

/-- Claim C6, witness: a concrete cryptographically valid token with
issuer `hollaex` checked against configured issuer `otherIssuer` is
rejected with `TokenExpired` on both paths. -/
theorem issuer_mismatch_token_expired_witness :
    verifyBearerTokenPromise envIssuerMismatch "Bearer t" ["other"]
      = Except.error AuthError.tokenExpired ∧
    verifyBearerTokenMiddleware envIssuerMismatch
        { apiKey := none, authorization := some "Bearer t"
          apiSignature := none, apiExpires := none } "Bearer t" ["other"]
      = MwResult.err AuthError.tokenExpired := by
  have h := issuer_mismatch_token_expired envIssuerMismatch "Bearer t"
    ["other"] dtokOther (by decide) (by decide) (by decide) (by decide)
    (by decide)
  exact ⟨h.1, h.2 "Bearer t" none none⟩

/-- Claim C4: when every token row carrying the presented key is
inactive (in particular a revoked key, which has `active = false`),
HMAC verification fails with `ApiKeyInvalid` — the `active: true`
condition inside `findTokenByApiKey` hides the row, so the lookup
misses and verification can never reach the signature comparison,
whatever signature is presented and however distant the request
expiry.  (`ApiKeyInactive` itself is unreachable through this lookup;
the disjunction `ApiKeyInactive` or `ApiKeyInvalid` claimed by the
spec is realised by its second disjunct.) -/
theorem inactive_key_never_verifies (hmac : String → String → String)
    (db : DB) (nowSec nowMs : Int) (apiKey apiSignature : String)
    (apiExpires : Int) (method originalUrl : String) (body : Json)
    (scopes : List String)
    (hk : apiKey ≠ "") (hs : apiSignature ≠ "")
    (he : ¬ nowSec > apiExpires)
    (hall : ∀ t ∈ db.tokens, t.key = apiKey → t.active = false) :
    verifyHmacTokenPromise hmac db nowSec nowMs apiKey apiSignature
        apiExpires method originalUrl body scopes
      = Except.error AuthError.apiKeyInvalid := by
  have hfind : findTokenByApiKey db apiKey = none := by
    unfold findTokenByApiKey
    rw [List.find?_eq_none]
    intro t ht
    simp only [Bool.and_eq_true, beq_iff_eq, not_and]
    intro h1 h2
    rw [hall t ht h1] at h2
    exact Bool.false_ne_true h2
  unfold verifyHmacTokenPromise
  simp [hfind, hk, hs, he]

/-- Claim C4, witness: a revoked key row `{active := false, revoked :=
true}` presented with the signature that would be correct for the
row's secret, inside an unexpired window, is rejected with
`ApiKeyInvalid`. -/
theorem inactive_key_never_verifies_witness :
    verifyHmacTokenPromise hmacToy dbRevoked 50 50 "rk"
        (hmacToy "rsecret" ("GET" ++ "/orders" ++ "100" ++ "")) 100
        "GET" "/orders" (Json.str "") ["hmac"]
      = Except.error AuthError.apiKeyInvalid := by
  exact inactive_key_never_verifies hmacToy dbRevoked 50 50 "rk"
    (hmacToy "rsecret" ("GET" ++ "/orders" ++ "100" ++ "")) 100
    "GET" "/orders" (Json.str "") ["hmac"]
    (by decide) (by decide) (by decide) (by decide)

/-- Claim C7: `calculateSignature` produces the digest of the exact
concatenation `verb + path + nonce + serialized-body` (the body
verbatim when it is a string, its JSON serialisation otherwise),
matching the spec-side `specSign`; it is deterministic — equal inputs
give equal outputs; and `checkHmacSignature` succeeds exactly when the
presented `api-signature` header equals that recomputation over the
request's method, URL, `api-expires` value and body. -/
theorem signature_engine_spec (hmac : String → String → String)
    (secret verb path nonce : String) (data : Json) (req : HmacReq) :
    calculateSignature hmac secret verb path nonce data
      = specSign hmac secret verb path nonce data ∧
    (∀ (hmac2 : String → String → String)
       (secret2 verb2 path2 nonce2 : String) (data2 : Json),
       hmac = hmac2 → secret = secret2 → verb = verb2 → path = path2 →
       nonce = nonce2 → data = data2 →
       calculateSignature hmac secret verb path nonce data
         = calculateSignature hmac2 secret2 verb2 path2 nonce2 data2) ∧
    (checkHmacSignature hmac secret req = true ↔
      req.headers.apiSignature
        = some (calculateSignature hmac secret req.method req.originalUrl
            (expiresHeaderString req.headers.apiExpires) req.body)) := by
  refine ⟨?_, ?_, ?_⟩
  · cases data <;> rfl
  · intro hmac2 secret2 verb2 path2 nonce2 data2 h1 h2 h3 h4 h5 h6
    rw [h1, h2, h3, h4, h5, h6]
  · cases hsig : req.headers.apiSignature with
    | none =>
      unfold checkHmacSignature
      rw [hsig]
      exact ⟨nofun, nofun⟩
    | some s =>
      unfold checkHmacSignature
      rw [hsig]
      constructor
      · intro h
        exact congrArg Option.some (beq_iff_eq.mp h).symm
      · intro h
        exact beq_iff_eq.mpr (Option.some.inj h).symm

/-- Claim C7, witness: the three parts of `signature_engine_spec`
evaluated at a concrete request whose `api-signature` header holds the
recomputed digest. -/
theorem signature_engine_spec_witness :
    calculateSignature hmacToy "sec" "GET" "/p" "9" (Json.str "b")
      = specSign hmacToy "sec" "GET" "/p" "9" (Json.str "b") ∧
    calculateSignature hmacToy "sec" "GET" "/p" "9" (Json.str "b")
      = calculateSignature hmacToy "sec" "GET" "/p" "9" (Json.str "b") ∧
    checkHmacSignature hmacToy "sec" reqSigned = true := by
  have h := signature_engine_spec hmacToy "sec" "GET" "/p" "9"
    (Json.str "b") reqSigned
  exact ⟨h.1, h.2.1 hmacToy "sec" "GET" "/p" "9" (Json.str "b")
    rfl rfl rfl rfl rfl rfl, h.2.2.mpr (by decide)⟩

/-- Claim C8: `verifyOtp` accepts the candidate exactly when it equals
the TOTP code at the current 30-second step counter, one step behind,
or one step ahead; and a code taken from two steps away, when it does
not coincide with any of those three window codes, is rejected. -/
theorem verifyOtp_skew_window (env : OtpEnv) (secret digits : String) :
    (verifyOtp env secret digits = true ↔
      (digits = env.hotp secret (env.nowSec / timeSlice - 1) ∨
       digits = env.hotp secret (env.nowSec / timeSlice) ∨
       digits = env.hotp secret (env.nowSec / timeSlice + 1))) ∧
    (∀ farCode : String,
      farCode = env.hotp secret (env.nowSec / timeSlice - 2) →
      farCode ≠ env.hotp secret (env.nowSec / timeSlice - 1) →
      farCode ≠ env.hotp secret (env.nowSec / timeSlice) →
      farCode ≠ env.hotp secret (env.nowSec / timeSlice + 1) →
      verifyOtp env secret farCode = false) := by
  have h30 : (env.nowSec - 30) / timeSlice = env.nowSec / timeSlice - 1 := by
    unfold timeSlice; omega
  have h0 : (env.nowSec - 0) / timeSlice = env.nowSec / timeSlice := by
    rw [sub_zero]
  have hm30 : (env.nowSec - (-30)) / timeSlice = env.nowSec / timeSlice + 1 := by
    unfold timeSlice; omega
  have hiff : verifyOtp env secret digits = true ↔
      (digits = env.hotp secret (env.nowSec / timeSlice - 1) ∨
       digits = env.hotp secret (env.nowSec / timeSlice) ∨
       digits = env.hotp secret (env.nowSec / timeSlice + 1)) := by
    unfold verifyOtp generateOtp
    rw [h30, h0, hm30]
    simp [List.contains]
  refine ⟨hiff, ?_⟩
  intro farCode hfar h1 h2 h3
  cases hv : verifyOtp env secret farCode with
  | false => rfl
  | true =>
    exfalso
    have hgen : verifyOtp env secret digits = true ↔
        (digits = env.hotp secret (env.nowSec / timeSlice - 1) ∨
         digits = env.hotp secret (env.nowSec / timeSlice) ∨
         digits = env.hotp secret (env.nowSec / timeSlice + 1)) := hiff
    rcases (by
      unfold verifyOtp generateOtp at hv
      rw [h30, h0, hm30] at hv
      simpa [List.contains] using hv :
        farCode = env.hotp secret (env.nowSec / timeSlice - 1) ∨
        farCode = env.hotp secret (env.nowSec / timeSlice) ∨
        farCode = env.hotp secret (env.nowSec / timeSlice + 1)) with
      h | h | h
    · exact h1 h
    · exact h2 h
    · exact h3 h

/-- Claim C8, witness: in the concrete OTP environment at time 95 s
(step counter 3), the code of step 2 (one behind) is accepted and the
code of step 1 (two behind, distinct from the window codes) is
rejected. -/
theorem verifyOtp_skew_window_witness :
    verifyOtp otpEnvW "s" (otpEnvW.hotp "s" 2) = true ∧
    verifyOtp otpEnvW "s" (otpEnvW.hotp "s" 1) = false := by
  have h := verifyOtp_skew_window otpEnvW "s" (otpEnvW.hotp "s" 2)
  have h' := verifyOtp_skew_window otpEnvW "s" (otpEnvW.hotp "s" 1)
  exact ⟨h.1.mpr (by decide), h'.2 (otpEnvW.hotp "s" 1) (by decide)
    (by decide) (by decide) (by decide)⟩

/-- Claim C1, counterexample: a user with `otp_enabled = false` calling
`createUserKitHmacToken` (with the empty OTP code, as the claim allows
any value) does not succeed — `checkUserOtpActive` throws
`TOKEN_OTP_MUST_BE_ENABLED` precisely because the user has not
enabled OTP, so no token row is created and no key is returned. -/
theorem createApiKey_noOtp_counterexample :
    userNoOtp.otp_enabled = false ∧
    createUserKitHmacToken otpEnvW dbNoOtp 1 "" "ip" "nm" "k" "s" 0 100
      = Except.error AuthError.tokenOtpMustBeEnabled ∧
    (createUserKitHmacToken otpEnvW dbNoOtp 1 "" "ip" "nm" "k" "s" 0 100).isOk
      = false := by
  exact ⟨rfl, by decide, by decide⟩

/-- Claim C1, amended: for every user whose `otp_enabled` flag is
false, `createUserKitHmacToken` with any OTP code value (including
empty) fails with `TokenOtpMustBeEnabled`: the pass-through of
`verifyOtpBeforeAction` for non-enrolled users is overridden by
`checkUserOtpActive`'s requirement that OTP be enabled, so no token
record is created and no key or secret is returned. -/
theorem createApiKey_requires_otp_enabled (env : OtpEnv) (db : DB)
    (userId : Nat) (otpCode ip name key secret : String)
    (nowMs hmacTokenExpiry : Int) (u : User)
    (hu : findUserById db userId = some u)
    (hflag : u.otp_enabled = false) :
    createUserKitHmacToken env db userId otpCode ip name key secret nowMs
        hmacTokenExpiry
      = Except.error AuthError.tokenOtpMustBeEnabled := by
  unfold createUserKitHmacToken checkUserOtpActive getUserByKitId
    verifyOtpBeforeAction hasUserOtpEnabled
  rw [hu]
  simp [bind, Except.bind, pure, Except.pure, hflag]

/-- Claim C1, witness for the amended theorem: the concrete
non-enrolled user rejected with `TokenOtpMustBeEnabled` for an
arbitrary non-empty OTP code as well. -/
theorem createApiKey_requires_otp_enabled_witness :
    findUserById dbNoOtp 1 = some userNoOtp ∧
    createUserKitHmacToken otpEnvW dbNoOtp 1 "123456" "ip" "nm" "k" "s" 0 100
      = Except.error AuthError.tokenOtpMustBeEnabled := by
  exact ⟨by decide, createApiKey_requires_otp_enabled otpEnvW dbNoOtp 1
    "123456" "ip" "nm" "k" "s" 0 100 userNoOtp (by decide) (by decide)⟩

/-- Claim C9: `resetUserPassword` called with a reset code whose
`used` flag is already true and a format-valid new password fails with
`CodeUsed`; the error is raised before any store write, so the code
record and every user's password are left as they were (in the
embedding, the updated store is only produced on success). -/
theorem used_reset_code_rejected (db : DB) (codeVal newPassword : String)
    (c : ResetCodeRec)
    (hfind : db.resetCodes.find? (fun r => r.code == codeVal) = some c)
    (hused : c.used = true)
    (hpw : isValidPassword newPassword = true) :
    resetUserPassword db codeVal newPassword
      = Except.error AuthError.codeUsed := by
  unfold resetUserPassword getResetPasswordCode
  rw [hfind]
  simp [bind, Except.bind, hpw, hused]

/-- Claim C9, witness: a concrete store with a consumed reset code
rejects a reuse attempt carrying the valid password `abcd1234`. -/
theorem used_reset_code_rejected_witness :
    isValidPassword "abcd1234" = true ∧
    resetUserPassword dbUsedCode "rc-1" "abcd1234"
      = Except.error AuthError.codeUsed := by
  exact ⟨by decide, used_reset_code_rejected dbUsedCode "rc-1" "abcd1234"
    usedResetCode (by decide) (by decide) (by decide)⟩

/-- Claim C3 (code bug): `verifyNetworkHmacToken` is specified to
resolve exactly when the request's signature is valid against the
stored system-level secret obtained via `getApiKeySecret`, but the
source never awaits the promise returned by `getApiKeySecret()`, so
the secret it hands to the signature check is `undefined` and
`calculateSignature` replaces it with the empty string: a request
correctly signed with the stored secret `syssecret` is rejected with
`ApiSignatureInvalid`, while a request signed with the empty secret —
invalid against the stored secret — resolves. -/
theorem network_hmac_ignores_stored_secret :
    (getApiKeySecret dbStatus).2 = "syssecret" ∧
    netReqGood.headers.apiSignature
      = some (hmacToy "syssecret" ("GET" ++ "/network" ++ "100" ++ "")) ∧
    verifyNetworkHmacToken hmacToy dbStatus 50 netReqGood
      = Except.error AuthError.apiSignatureInvalid ∧
    netReqForged.headers.apiSignature
      = some (hmacToy "" ("GET" ++ "/network" ++ "100" ++ "")) ∧
    verifyNetworkHmacToken hmacToy dbStatus 50 netReqForged
      = Except.ok () := by
  exact ⟨rfl, rfl, by decide, rfl, by decide⟩
